import Mathlib

/-!
Verification development for the Real-Time-Trade-Settlement backend.

The Python sources `ml_fraud_detector.py`, `trade_graph.py` and
`trade_agent.py` are shallowly embedded below.  Conventions:

* Python `int` values become `ℤ` (or `ℕ` where the source only ever holds
  non-negative values, e.g. the adaptive risk threshold), Python `float`
  arithmetic is modelled in `ℚ` (exact arithmetic; every concrete instance
  used in a theorem below is exact in IEEE-754 binary64 as well, except for
  the constructor's wei-normalisation, which is modelled bit-exactly via an
  explicit binary64 rounding function).
* External collaborators (the Gemini LLM calls, the web3 balance reads, the
  pickled random-forest model, `numpy.std`, the wall clock) are modelled as
  an explicit environment record `Env` threaded through the pipeline; the
  defensive JSON/regex parsing of LLM free text is modelled by its outcome
  (`Option LLMDecision`).
* Mutable object state (`AgenticTradeValidator` memory, `MLFraudDetector`
  rolling histories and statistics) is threaded explicitly:
  state-mutating methods return the updated state.
* Purely diagnostic strings (log lines, reasoning narratives, timestamps
  inside metadata) are either carried verbatim from the environment or
  replaced by fixed marker strings; no decision logic reads them.
-/

/-! ## Generic helpers

Python's exact-value float operations are modelled by kernel-computable
rational operations (`Rat.divInt`-based division, if-based `min`/`abs`),
so that every concrete witness below evaluates by `decide`; the bridging
lemmas `pyDiv_eq`, `pyMin_eq`, `pyAbs_eq` identify them with the standard
`ℚ` operations.  The library's rational arithmetic is restored to normal
reducibility so that such evaluations can proceed. -/

attribute [local semireducible] Rat.mul Rat.add Rat.sub Rat.inv

/-- Exact rational division, `x / 0 = 0` (kernel-computable `a / b`). -/
def pyDiv (a b : ℚ) : ℚ := Rat.divInt (a.num * b.den) (a.den * b.num)

/-- Binary minimum, as Python's `min` computes it. -/
def pyMin (a b : ℚ) : ℚ := if a ≤ b then a else b

/-- Absolute value, as Python's `abs` computes it. -/
def pyAbs (a : ℚ) : ℚ := if a < 0 then -a else a

/-- ASCII lower-casing of one character (`str.lower` restricted to the
ASCII strings that occur here). -/
def lowerChar (c : Char) : Char :=
  if 65 ≤ c.toNat ∧ c.toNat ≤ 90 then Char.ofNat (c.toNat + 32) else c

/-- ASCII lower-casing (`str.lower`). -/
def lowerStr (s : String) : String := String.mk (s.data.map lowerChar)

/-- Python `l[-n:]` — the `n` most recent elements of a list. -/
def lastN (n : ℕ) (l : List α) : List α := l.drop (l.length - n)

/-- Append to a `collections.deque(maxlen := n)` / trim-to-capacity buffer:
append, then drop the oldest elements beyond capacity `n`. -/
def appendCap (n : ℕ) (l : List α) (x : α) : List α :=
  let l2 := l ++ [x]
  if l2.length > n then l2.drop (l2.length - n) else l2

/-- Dictionary lookup with default (`dict.get(k, d)`). -/
def lookupD (m : List (String × α)) (k : String) (d : α) : α :=
  ((m.find? fun p => p.fst == k).map Prod.snd).getD d

/-- Dictionary update (`m[k] = v`). -/
def setKey (m : List (String × α)) (k : String) (v : α) : List (String × α) :=
  if m.any (fun p => p.fst == k) then
    m.map fun p => if p.fst == k then (k, v) else p
  else m ++ [(k, v)]

/-! ## IEEE-754 binary64 modelling

Two places in `trade_agent.py` compute with Python floats on values large
enough for the rounding to be observable: the constructor's wei
normalisation `int(initial_risk_threshold / 10 ** 18)` (lines 50–58) and
the learning update's threshold blend
`int(old_threshold * 0.7 + new_threshold * 0.3)` (line 218).  Both are
modelled bit-exactly: a rational is rounded to the nearest IEEE-754
binary64 value (53 significant bits, ties to even) after every
conversion and arithmetic operation, exactly as CPython evaluates them.
Positive normal range; overflow, far beyond any realistic threshold, is
out of the model. -/

/-- Round a rational to the nearest integer, ties to even.  The fractional
part `r = q - ⌊q⌋ = (q.num - ⌊q⌋ * q.den) / q.den` is compared with `1/2`
through the equivalent integer comparison of `2 * (q.num - ⌊q⌋ * q.den)`
with `q.den`. -/
def roundHalfEven (q : ℚ) : ℤ :=
  let f := q.floor
  let twiceNum := 2 * (q.num - f * q.den)
  if twiceNum < (q.den : ℤ) then f
  else if (q.den : ℤ) < twiceNum then f + 1
  else if f.emod 2 = 0 then f else f + 1

/-- Fuelled floor of the base-2 logarithm of a natural number
(`fuel ≥ n` suffices). -/
def log2floorFuel : ℕ → ℕ → ℕ
  | 0, _ => 0
  | fuel + 1, n => if 2 ≤ n then log2floorFuel fuel (n / 2) + 1 else 0

/-- Fuelled ceiling of the base-2 logarithm of a positive natural number. -/
def log2ceilFuel (fuel n : ℕ) : ℕ :=
  if n ≤ 1 then 0 else log2floorFuel fuel (n - 1) + 1

/-- The binary exponent of a positive rational: the greatest `e` with
`2 ^ e ≤ q`. -/
def qlog2 (q : ℚ) : ℤ :=
  if 1 ≤ q then (log2floorFuel q.floor.toNat q.floor.toNat : ℤ)
  else -(log2ceilFuel (pyDiv 1 q).ceil.toNat (pyDiv 1 q).ceil.toNat : ℤ)

/-- `2 ^ e` for an integer exponent, as a rational. -/
def pow2z (e : ℤ) : ℚ :=
  if 0 ≤ e then ((2 ^ e.toNat : ℕ) : ℚ) else mkRat 1 (2 ^ (-e).toNat)

/-- Round a positive rational to the nearest IEEE-754 binary64 value
(53 significant bits, round to nearest, ties to even; normal range). -/
def floatRound (q : ℚ) : ℚ :=
  if q ≤ 0 then 0
  else
    let scale := pow2z (52 - qlog2 q)
    pyDiv (mkRat (roundHalfEven (q * scale)) 1) scale


/-- Binary64 multiplication of already-rounded operands: the exact
product, rounded. -/
def floatMul (a b : ℚ) : ℚ := floatRound (a * b)

/-- Binary64 addition of already-rounded operands: the exact sum,
rounded. -/
def floatAdd (a b : ℚ) : ℚ := floatRound (a + b)

/-- The binary64 value of the Python literal `0.7`. -/
def float07 : ℚ := floatRound (mkRat 7 10)

/-- The binary64 value of the Python literal `0.3`. -/
def float03 : ℚ := floatRound (mkRat 3 10)

/-! ## ml_fraud_detector.py — data model -/

/-- One entry of `MLFraudDetector.trade_history` (the dict appended in
`extract_features`; the `timestamp` field is write-only in the source and
elided). -/
structure TradeEvent where
  token : String
  buyer : String
  seller : String
  size : ℚ
  price : ℚ
deriving DecidableEq

/-- `MLFraudDetector.detection_stats`. -/
structure DetectionStats where
  total_checks : ℕ
  fraud_detected : ℕ
  high_risk : ℕ
  medium_risk : ℕ
  low_risk : ℕ
deriving DecidableEq

/-- The mutable state of `MLFraudDetector`: rolling global trade history
(deque capacity 1000), per-token price history (deque capacity 100),
per-trader running trade counts (`trader_stats`; the write-only
`last_trade_time` field is elided) and the diagnostic counters. -/
structure MLState where
  trade_history : List TradeEvent
  price_history : List (String × List ℚ)
  trader_stats : List (String × ℕ)
  detection_stats : DetectionStats
deriving DecidableEq

/-- The `trade_data` dict passed to `predict_fraud`
(`timestamp` is represented by its consumed projections `hour`/`weekday`). -/
structure TradeData where
  token : String
  buyer : String
  seller : String
  trade_size : ℚ
  trade_price : ℚ
  market_price : ℚ
  buyer_balance : ℚ
  seller_balance : ℚ
  hour : ℕ
  weekday : ℕ
deriving DecidableEq

/-- The feature dict built in `extract_features` (field names follow the
source keys; `buyer_balance_frac` stands for the source's buyer balance
fraction feature, and likewise for the seller). -/
structure FeatureVector where
  trade_size : ℚ
  trade_price : ℚ
  trade_value : ℚ
  market_price : ℚ
  price_deviation_pct : ℚ
  rolling_volatility : ℚ
  market_trend : ℤ
  buyer_balance_frac : ℚ
  seller_balance_frac : ℚ
  trade_frequency : ℕ
  attempted_manip : ℕ
  hour : ℕ
  weekday : ℕ
  counterparty_repeat : ℕ
deriving DecidableEq

/-- The frozen classifier artifact (`fraud_detection_model.pkl`): a decision
threshold plus the model-and-scaler scoring function
`predict_proba(features)[0, 1]`, which is external to the repository and
therefore an abstract function of the feature vector. -/
structure MLModel where
  threshold : ℚ
  proba : FeatureVector → ℚ

/-- The standardized result dict of `predict_fraud` /
`_run_ml_fraud_detection` (diagnostic `reasoning` / timing keys elided). -/
structure MLResult where
  is_fraudulent : Bool
  fraud_probability : ℚ
  risk_level : String
  action : String
deriving DecidableEq

/-! ## trade_graph.py — data model and environment -/

/-- Parsed outcome of the planning LLM call (`analyze_trade_pattern`), after
the source's `get(..., default)` post-processing. -/
structure PlanningResponse where
  initial_thoughts : List String
  investigation_plan : List String
  risk_factors : List String
  confidence_score : ℚ

/-- Parsed outcome of the risk-assessment LLM call
(`adaptive_risk_assessment`). -/
structure RiskResponse where
  risk_level : String
  recommended_threshold : Option ℕ
  reasoning : String

/-- The decision extracted from the decision LLM's free text by the JSON /
regex / keyword cascade in `agent_decision_node` (lines 329–371); `none`
models the cascade finding no APPROVE/REJECT/MANUAL_REVIEW signal. -/
inductive LLMDecision where
  | approve
  | reject
  | manualReview
deriving DecidableEq

/-- The environment of one `assess_trade` invocation: every external
collaborator consulted by the pipeline.  `graphBalances`/`mlBalances` are
the two independent chain reads (`none` models a raised exception;
`mlBalances` is in human units, after the source's `fromWei`),
`npStd` models `numpy.std` (a floating-point population standard
deviation), `now` the wall clock. -/
structure Env where
  planning : PlanningResponse
  graphBalances : Option (ℤ × ℤ)
  risk : RiskResponse
  decision : Option LLMDecision
  decisionReasoning : String
  now : String
  mlBalances : Option (ℚ × ℚ)
  hour : ℕ
  weekday : ℕ
  npStd : List ℚ → ℚ
  model : MLModel

/-- Summary view of a similar historical trade, as built by
`_get_similar_trades` (and stored in the graph state's `similar_trades`). -/
structure SimilarSummary where
  amount_cash : ℚ
  amount_sec : ℚ
  outcome : String
  timestamp : String
  confidence : ℚ
deriving DecidableEq

/-- `AgenticTradeState` (trade_graph.py lines 16–43).  The `market_context`
dict of constants and the `ml_fraud_detection` payload are carried but never
read by any node or the router and are elided. -/
structure GraphState where
  party_cash : String
  party_sec : String
  required_cash : ℤ
  required_sec : ℤ
  token_cash : String
  token_sec : String
  agent_thoughts : List String
  investigation_plan : List String
  completed_checks : List String
  risk_factors : List String
  similar_trades : List SimilarSummary
  current_risk_threshold : ℕ
  confidence_score : ℚ
  balance : String
  risk_assessment : String
  final_decision : String
  reasoning_chain : String
  approved : Bool
  trade_timestamp : String
deriving DecidableEq

/-! ## ml_fraud_detector.py — feature extraction and prediction -/

/-- Simple returns `(p_i - p_{i-1}) / p_{i-1}` over a price window.
A zero historical price raises `ZeroDivisionError` in the source (caught by
`extract_features`, leading to the fail-open default); the embedding uses
the `ℚ` convention `x / 0 = 0` — no claim involves zero prices. -/
def listReturns (ps : List ℚ) : List ℚ :=
  (ps.zip (ps.drop 1)).map fun p => pyDiv (p.snd - p.fst) p.fst

/-- `numpy.mean` over a window (`sum / len`). -/
def npMean (l : List ℚ) : ℚ := pyDiv l.sum l.length

/-- `_calculate_rolling_volatility`, given the already-appended per-token
price window: default `0.1` with fewer than two observations, otherwise
`np.std` of the simple returns. -/
def rollingVolatility (std : List ℚ → ℚ) (ph : List ℚ) : ℚ :=
  if ph.length < 2 then mkRat 1 10 else std (listReturns ph)

/-- `_get_market_trend`: requires ≥ 10 observations; compares the mean of
the last 5 prices to the mean of the preceding 5 (`1.02` / `0.98` factors). -/
def marketTrend (ph : List ℚ) : ℤ :=
  if ph.length < 10 then 0
  else
    let recent := npMean (lastN 5 ph)
    let older := npMean ((lastN 10 ph).take 5)
    if recent > older * mkRat 102 100 then 1
    else if recent < older * mkRat 98 100 then -1
    else 0

/-- `_get_trader_balance_ratio`: `0.5` when the total is zero, else
`min(balance / total, 1.0)`. -/
def balanceFrac (bal total : ℚ) : ℚ :=
  if total = 0 then mkRat 1 2 else pyMin (pyDiv bal total) 1

/-- `_check_counterparty_repeat` over the last 100 recorded trades. -/
def counterpartyRepeat (hist : List TradeEvent) (buyer seller : String) : ℕ :=
  if (lastN 100 hist).any
      (fun t => (t.buyer == buyer && t.seller == seller) ||
                (t.buyer == seller && t.seller == buyer))
  then 1 else 0

/-- `_detect_manipulation_attempt`: large price deviation during an
abnormally calm market, or one party dominating the last 20 trades. -/
def detectManip (hist : List TradeEvent) (dev vol : ℚ) (buyer seller : String) : ℕ :=
  if pyAbs dev > 5 ∧ vol < mkRat 1 10 then 1
  else
    let recent := lastN 20 hist
    let buyerTrades := (recent.filter fun t => t.buyer == buyer).length
    let sellerTrades := (recent.filter fun t => t.seller == seller).length
    if buyerTrades > 10 ∨ sellerTrades > 10 then 1 else 0

/-- `MLFraudDetector.extract_features`: builds the feature vector and, as an
intentional side effect, appends the trade to the per-token price history
(capacity 100) and the global trade history (capacity 1000) and increments
both traders' counts.  The volatility window is appended *before* trend and
manipulation are derived, exactly as in the source. -/
def extractFeatures (std : List ℚ → ℚ) (ml : MLState) (td : TradeData) :
    FeatureVector × MLState :=
  let trade_value := td.trade_size * td.trade_price
  let dev :=
    if td.market_price > 0
    then pyDiv (td.trade_price - td.market_price) td.market_price * 100 else 0
  let ph := appendCap 100 (lookupD ml.price_history td.token []) td.trade_price
  let vol := rollingVolatility std ph
  let fv : FeatureVector :=
    { trade_size := td.trade_size
      trade_price := td.trade_price
      trade_value := trade_value
      market_price := td.market_price
      price_deviation_pct := dev
      rolling_volatility := vol
      market_trend := marketTrend ph
      buyer_balance_frac := balanceFrac td.buyer_balance (td.buyer_balance + 1000)
      seller_balance_frac := balanceFrac td.seller_balance (td.seller_balance + 1000)
      trade_frequency := lookupD ml.trader_stats td.buyer 0
      attempted_manip := detectManip ml.trade_history dev vol td.buyer td.seller
      hour := td.hour
      weekday := td.weekday
      counterparty_repeat := counterpartyRepeat ml.trade_history td.buyer td.seller }
  let ev : TradeEvent :=
    { token := td.token, buyer := td.buyer, seller := td.seller
      size := td.trade_size, price := td.trade_price }
  let stats := [td.buyer, td.seller].foldl
    (fun m tr => setKey m tr (lookupD m tr 0 + 1)) ml.trader_stats
  (fv,
    { trade_history := appendCap 1000 ml.trade_history ev
      price_history := setKey ml.price_history td.token ph
      trader_stats := stats
      detection_stats := ml.detection_stats })

/-- The risk-level bucketing of `predict_fraud` (lines 283–295). -/
def riskBucket (p : ℚ) : String :=
  if p ≥ mkRat 1 2 then "CRITICAL"
  else if p ≥ mkRat 1 5 then "HIGH"
  else if p ≥ mkRat 1 10 then "MEDIUM"
  else "LOW"

/-- The classifier verdict derived from a fraud probability: the flag is
the comparison with the configured decision threshold, the bucket is
`riskBucket`. -/
def classifierVerdict (model : MLModel) (p : ℚ) : MLResult :=
  { is_fraudulent := decide (p ≥ model.threshold)
    fraud_probability := p
    risk_level := riskBucket p
    action := if decide (p ≥ model.threshold) then "BLOCK" else "ALLOW" }

/-- The per-bucket counter update of `predict_fraud` (CRITICAL and HIGH
both feed `high_risk`, as in the source). -/
def bumpRiskStats (ds : DetectionStats) (p : ℚ) (fraud : Bool) : DetectionStats :=
  let ds :=
    if p ≥ mkRat 1 2 then { ds with high_risk := ds.high_risk + 1 }
    else if p ≥ mkRat 1 5 then { ds with high_risk := ds.high_risk + 1 }
    else if p ≥ mkRat 1 10 then { ds with medium_risk := ds.medium_risk + 1 }
    else { ds with low_risk := ds.low_risk + 1 }
  if fraud then { ds with fraud_detected := ds.fraud_detected + 1 } else ds

/-- `MLFraudDetector.predict_fraud` (lines 245–338): increments
`total_checks`, extracts features, scores the frozen model, applies the
configured decision threshold, buckets the risk level and updates the
per-bucket counters. -/
def predictFraud (model : MLModel) (std : List ℚ → ℚ) (ml : MLState)
    (td : TradeData) : MLResult × MLState :=
  let ds0 := ml.detection_stats
  let ml0 := { ml with detection_stats := { ds0 with total_checks := ds0.total_checks + 1 } }
  let fvml := extractFeatures std ml0 td
  let p := model.proba fvml.fst
  let v := classifierVerdict model p
  (v, { fvml.snd with detection_stats := bumpRiskStats fvml.snd.detection_stats p v.is_fraudulent })

/-! ## trade_graph.py — nodes, router, graph -/

/-- The mock similar trades installed by `market_context_analyzer`
(amounts `0.9×` and `1.1×` the required cash; the mock dicts carry no
separate securities amount or confidence — those slots are zero-filled in
the summary type). -/
def mockSimilarTrades (rc : ℤ) : List SimilarSummary :=
  [ { amount_cash := (rc : ℚ) * mkRat 9 10, amount_sec := 0, outcome := "approved"
      timestamp := "2024-01-15", confidence := 0 },
    { amount_cash := (rc : ℚ) * mkRat 11 10, amount_sec := 0, outcome := "rejected"
      timestamp := "2024-01-10", confidence := 0 } ]

/-- `agent_planning_node`: installs the planning LLM's analysis and the
trade timestamp. -/
def agent_planning_node (env : Env) (st : GraphState) : GraphState :=
  { st with
    agent_thoughts := env.planning.initial_thoughts
    investigation_plan := env.planning.investigation_plan
    risk_factors := env.planning.risk_factors
    confidence_score := env.planning.confidence_score
    trade_timestamp := env.now }

/-- `context_gathering_node`: installs the mock market context and records
completion of `context_analysis`. -/
def context_gathering_node (st : GraphState) : GraphState :=
  { st with
    similar_trades := mockSimilarTrades st.required_cash
    completed_checks := st.completed_checks ++ ["context_analysis"] }

/-- `dynamic_balance_check`: `sufficient` iff both on-chain balances cover
the required amounts; a raised exception (modelled by `none`) yields
`error`. -/
def dynamic_balance_check (bal : Option (ℤ × ℤ)) (rc rs : ℤ) : String :=
  match bal with
  | none => "error"
  | some (bc, bs) => if bc ≥ rc ∧ bs ≥ rs then "sufficient" else "insufficient"

/-- `enhanced_balance_node`: records the balance verdict, completion of
`balance_check`, and the analysis narrative (marker string). -/
def enhanced_balance_node (env : Env) (st : GraphState) : GraphState :=
  { st with
    balance := dynamic_balance_check env.graphBalances st.required_cash st.required_sec
    completed_checks := st.completed_checks ++ ["balance_check"]
    agent_thoughts := st.agent_thoughts ++ ["balance_analysis"] }

/-- `intelligent_risk_node`: installs the risk LLM's level, adopts its
recommended threshold when present, nudges confidence up by `0.1` capped
at `1.0`, and records completion of `risk_assessment`. -/
def intelligent_risk_node (env : Env) (st : GraphState) : GraphState :=
  { st with
    risk_assessment := env.risk.risk_level
    current_risk_threshold := env.risk.recommended_threshold.getD st.current_risk_threshold
    confidence_score := pyMin (st.confidence_score + mkRat 1 10) 1
    completed_checks := st.completed_checks ++ ["risk_assessment"]
    agent_thoughts := st.agent_thoughts ++ [env.risk.reasoning] }

/-- `agent_decision_node` (lines 291–415), from the point where the LLM
response has been parsed into `env.decision`: the LLM approval is
overridden to a rejection when the pipeline confidence is below `0.5` or
the (lower-cased) risk assessment is `high`/`critical`; a MANUAL_REVIEW
decision yields the distinct `manual_review` terminal.  The balance verdict
appears only in the LLM prompt and is never consulted here. -/
def agent_decision_node (env : Env) (st : GraphState) : GraphState :=
  let llm_approved := decide (env.decision = some .approve)
  let conf := st.confidence_score
  let risk := lowerStr st.risk_assessment
  let a1 := if llm_approved && decide (conf < mkRat 1 2) then false else llm_approved
  let a2 := if llm_approved && (risk == "high" || risk == "critical") then false else a1
  { st with
    approved := a2
    final_decision :=
      if a2 then "approved"
      else if env.decision = some .manualReview then "manual_review"
      else "rejected"
    reasoning_chain := env.decisionReasoning }

/-- `adaptive_router` (lines 417–441).  The source first normalises the
plan items to strings (dict items contribute their keys); the embedding
takes the normalised plan.  Routing: a planned, not-yet-completed context
analysis first, then balance, then risk, then the decision. -/
def adaptive_router (st : GraphState) : String :=
  if "context_analysis" ∉ st.completed_checks ∧
     "context_analysis" ∈ st.investigation_plan then "context_gathering"
  else if "balance_check" ∉ st.completed_checks then "enhanced_balance"
  else if "risk_assessment" ∉ st.completed_checks then "intelligent_risk"
  else "agent_decision"

/-- Dispatch one non-terminal node by name. -/
def runNode (env : Env) (name : String) (st : GraphState) : GraphState :=
  if name == "context_gathering" then context_gathering_node st
  else if name == "enhanced_balance" then enhanced_balance_node env st
  else intelligent_risk_node env st

/-- The compiled graph's conditional-edge loop after planning, with
explicit fuel (the router reaches `agent_decision` within 4 steps; proved
for claim C9).  Fuel exhaustion returns the state unchanged — unreachable
from the graph's entry. -/
def graphLoop (env : Env) : ℕ → GraphState → GraphState
  | 0, st => st
  | fuel + 1, st =>
    let nxt := adaptive_router st
    if nxt == "agent_decision" then agent_decision_node env st
    else graphLoop env fuel (runNode env nxt st)

/-- `build_agentic_trade_validator().invoke`: planning entry point, then
router-driven edges until the decision node. -/
def runGraph (env : Env) (st : GraphState) : GraphState :=
  graphLoop env 4 (agent_planning_node env st)

/-- Trace of node names visited after planning (instrumentation of
`graphLoop`, used to state claim C9). -/
def graphTrace (env : Env) : ℕ → GraphState → List String
  | 0, _ => []
  | fuel + 1, st =>
    let nxt := adaptive_router st
    if nxt == "agent_decision" then ["agent_decision"]
    else nxt :: graphTrace env fuel (runNode env nxt st)

/-- Node-name trace of a full graph run. -/
def runGraphTrace (env : Env) (st : GraphState) : List String :=
  graphTrace env 4 (agent_planning_node env st)

/-! ## trade_agent.py — data model -/

/-- The validator's static configuration (`__init__` arguments that are
never mutated): the two token addresses and the two feature switches. -/
structure Config where
  token_cash : String
  token_sec : String
  enable_learning : Bool
  enable_ml : Bool

/-- The four call arguments of `assess_trade`. -/
structure TradeInput where
  trader_cash : String
  trader_sec : String
  required_cash : ℤ
  required_sec : ℤ
deriving DecidableEq

/-- One entry of `AgenticTradeValidator.trade_history`
(`_update_learning`'s `trade_record`). -/
structure TradeRecord where
  timestamp : String
  required_cash : ℤ
  required_sec : ℤ
  approved : Bool
  confidence_score : ℚ
  risk_level : String
  reasoning : String
deriving DecidableEq

/-- `AgenticTradeValidator.learned_patterns` (the `risk_adjustments`
entries keep their `(old, new)` threshold pair; timestamps elided). -/
structure LearnedPatterns where
  approved_trades : List TradeRecord
  rejected_trades : List TradeRecord
  risk_adjustments : List (ℕ × ℕ)
deriving DecidableEq

/-- The validator's mutable agent memory. -/
structure ValidatorState where
  current_risk_threshold : ℕ
  trade_history : List TradeRecord
  learned_patterns : LearnedPatterns
deriving DecidableEq

/-- The comprehensive result dict returned by `assess_trade` (diagnostic
metadata, timings and the echoed addresses elided; `errorMsg` models the
`error` key, present exactly on the `_create_error_result` path). -/
structure TradeAssessment where
  approved : Bool
  final_decision : String
  confidence_score : ℚ
  reasoning_chain : String
  risk_assessment : String
  ml_fraud_detected : Bool
  ml_fraud_probability : ℚ
  ml_risk_level : String
  agent_decision : Bool
  ml_override : Bool
  balance_status : String
  trade_timestamp : String
  required_cash : ℤ
  required_sec : ℤ
  recommended_threshold : ℕ
  errorMsg : Option String
deriving DecidableEq

/-! ## trade_agent.py — input validation -/

/-- Hexadecimal digit test (the `[0-9a-fA-F]` character class). -/
def isHexDigit (c : Char) : Bool :=
  c.isDigit || (lowerChar c ≥ 'a' && lowerChar c ≤ 'f')

/-- `_is_valid_address`: a `0x`-prefixed 42-character string whose
remaining 40 characters are hex digits.  (The web3 checksum path accepts
exactly the well-formed 20-byte hex addresses it is given here, modulo
EIP-55 mixed-case checksums, which no claim exercises; the embedding is
the source's regex fallback, phrased over the character list.) -/
def isValidAddress (a : String) : Bool :=
  match a.data with
  | '0' :: 'x' :: rest => rest.length == 40 && rest.all isHexDigit
  | _ => false

/-- `AgenticTradeValidator.validate_inputs` (lines 99–161): addresses are
checked first (the validator's own token addresses included), then the
numeric checks — negative amounts, then the degenerate both-zero trade.
`none` means valid.  (The `None`-argument and dynamic-type checks are
unrepresentable here and elided.) -/
def validateInputs (cfg : Config) (inp : TradeInput) : Option String :=
  if !isValidAddress inp.trader_cash then
    some "Invalid address format for trader_cash"
  else if !isValidAddress inp.trader_sec then
    some "Invalid address format for trader_sec"
  else if !isValidAddress cfg.token_cash then
    some "Invalid address format for token_cash"
  else if !isValidAddress cfg.token_sec then
    some "Invalid address format for token_sec"
  else if inp.required_cash < 0 then
    some "Negative value for required_cash"
  else if inp.required_sec < 0 then
    some "Negative value for required_sec"
  else if inp.required_cash = 0 ∧ inp.required_sec = 0 then
    some "Both required_cash and required_sec cannot be zero"
  else none

/-! ## trade_agent.py — similar-trade lookup -/

/-- The 20%-window test of `_get_similar_trades`: both relative
differences, measured against the query amount (`max(query, 1)` guard),
strictly below `0.2`. -/
def similarMatch (rc rs : ℤ) (t : TradeRecord) : Bool :=
  decide (pyDiv ((t.required_cash - rc).natAbs : ℚ) ((max rc 1 : ℤ) : ℚ) < mkRat 1 5) &&
  decide (pyDiv ((t.required_sec - rs).natAbs : ℚ) ((max rs 1 : ℤ) : ℚ) < mkRat 1 5)

/-- The summary dict appended per matching trade. -/
def toSummary (t : TradeRecord) : SimilarSummary :=
  { amount_cash := (t.required_cash : ℚ)
    amount_sec := (t.required_sec : ℚ)
    outcome := if t.approved then "approved" else "rejected"
    timestamp := t.timestamp
    confidence := t.confidence_score }

/-- `_get_similar_trades` (lines 166–186): scans only the 50 most recent
records, in chronological (oldest-first) order, collects the summaries of
those inside the 20% window, and returns the first `limit` of them. -/
def getSimilarTrades (hist : List TradeRecord) (rc rs : ℤ) (limit : ℕ) :
    List SimilarSummary :=
  if hist = [] then []
  else ((((lastN 50 hist).filter (similarMatch rc rs)).map toSummary).take limit)

/-- Modelled from the spec: §4.6's `similarTrades` — "returns up to `limit`
most-recent records whose cash and securities amounts are each within 20%
relative difference of the query amounts, most-recent-first".  This is the
spec-side comparison point for claim C6, not code of the repository. -/
def specSimilarTrades (hist : List TradeRecord) (rc rs : ℤ) (limit : ℕ) :
    List SimilarSummary :=
  (((hist.reverse).filter (similarMatch rc rs)).map toSummary).take limit

/-! ## trade_agent.py — learning update -/

/-- The exponential-smoothing step of `_update_learning` (line 218):
`int(old_threshold * 0.7 + new_threshold * 0.3)`, evaluated as CPython
does — each integer is converted to binary64, multiplied by the binary64
value of the literal (`0.7` resp. `0.3`), the products are added, each
step rounding to the nearest binary64 value — and the non-negative sum is
finally truncated by `int()` (its floor). -/
def updateThreshold (old rec : ℕ) : ℕ :=
  (floatAdd (floatMul (floatRound (old : ℚ)) float07)
            (floatMul (floatRound (rec : ℚ)) float03)).floor.toNat

/-- The history bound of `_update_learning`: keep only the most recent 1000
records (`self.trade_history[-1000:]`). -/
def trimHistory (h : List TradeRecord) : List TradeRecord :=
  if h.length > 1000 then h.drop (h.length - 1000) else h

/-- Append one completed-trade record, then trim to capacity. -/
def updateTradeHistory (h : List TradeRecord) (r : TradeRecord) : List TradeRecord :=
  trimHistory (h ++ [r])

/-- The `trade_record` built from a completed assessment. -/
def mkTradeRecord (res : TradeAssessment) : TradeRecord :=
  { timestamp := res.trade_timestamp
    required_cash := res.required_cash
    required_sec := res.required_sec
    approved := res.approved
    confidence_score := res.confidence_score
    risk_level := res.risk_assessment
    reasoning := res.reasoning_chain }

/-- `AgenticTradeValidator._update_learning` (lines 188–231): a no-op when
learning is disabled; otherwise appends the record to the history and the
approved/rejected pattern list, smooths the adaptive threshold when the
result carries a truthy (non-zero) `recommended_threshold`, and finally
trims the history to 1000 records. -/
def updateLearning (enable : Bool) (vs : ValidatorState) (res : TradeAssessment) :
    ValidatorState :=
  if !enable then vs
  else
    let record := mkTradeRecord res
    let lp := vs.learned_patterns
    let lp :=
      if res.approved then { lp with approved_trades := lp.approved_trades ++ [record] }
      else { lp with rejected_trades := lp.rejected_trades ++ [record] }
    let adjusted :=
      if res.recommended_threshold ≠ 0 then
        let newThreshold := updateThreshold vs.current_risk_threshold res.recommended_threshold
        (newThreshold,
         { lp with risk_adjustments :=
            lp.risk_adjustments ++ [(vs.current_risk_threshold, newThreshold)] })
      else (vs.current_risk_threshold, lp)
    { current_risk_threshold := adjusted.fst
      trade_history := updateTradeHistory vs.trade_history record
      learned_patterns := adjusted.snd }

/-! ## trade_agent.py — ML wrapper and main assessment -/

/-- `_run_ml_fraud_detection` (lines 236–312): the disabled default, the
fail-open default on a chain-read exception, or a `predict_fraud` call on
the trade data assembled from the inputs and the (human-unit) balances. -/
def runMLFraudDetection (cfg : Config) (env : Env) (ml : MLState)
    (inp : TradeInput) : MLResult × MLState :=
  if !cfg.enable_ml then
    ({ is_fraudulent := false, fraud_probability := 0
       risk_level := "UNKNOWN", action := "ALLOW" }, ml)
  else
    match env.mlBalances with
    | none =>
      ({ is_fraudulent := false, fraud_probability := 0
         risk_level := "ERROR", action := "ALLOW" }, ml)
    | some (bb, sb) =>
      let price :=
        if inp.required_sec > 0
        then pyDiv (inp.required_cash : ℚ) (inp.required_sec : ℚ) else 0
      predictFraud env.model env.npStd ml
        { token := "GENERIC"
          buyer := inp.trader_cash
          seller := inp.trader_sec
          trade_size := (inp.required_sec : ℚ)
          trade_price := price
          market_price := price
          buyer_balance := bb
          seller_balance := sb
          hour := env.hour
          weekday := env.weekday }

/-- `_create_error_result`: the standardized error dict (keys the Python
dict omits — the ML block, `agent_decision`, `ml_override`,
`recommended_threshold` — are modelled by their Python-falsy defaults). -/
def errorResult (msg : String) (inp : TradeInput) : TradeAssessment :=
  { approved := false
    final_decision := "error"
    confidence_score := 0
    reasoning_chain := "Error occurred: " ++ msg
    risk_assessment := "error"
    ml_fraud_detected := false
    ml_fraud_probability := 0
    ml_risk_level := ""
    agent_decision := false
    ml_override := false
    balance_status := "error"
    trade_timestamp := ""
    required_cash := inp.required_cash
    required_sec := inp.required_sec
    recommended_threshold := 0
    errorMsg := some msg }

/-- The initial graph state dict assembled in `assess_trade`
(lines 348–370). -/
def mkGraphState (cfg : Config) (vs : ValidatorState) (inp : TradeInput)
    (similar : List SimilarSummary) : GraphState :=
  { party_cash := inp.trader_cash
    party_sec := inp.trader_sec
    required_cash := inp.required_cash
    required_sec := inp.required_sec
    token_cash := cfg.token_cash
    token_sec := cfg.token_sec
    agent_thoughts := []
    investigation_plan := []
    completed_checks := []
    risk_factors := []
    similar_trades := similar
    current_risk_threshold := vs.current_risk_threshold
    confidence_score := mkRat 1 2
    balance := ""
    risk_assessment := ""
    final_decision := ""
    reasoning_chain := ""
    approved := false
    trade_timestamp := "" }

/-- Marker for the ML-override narrative appended to the reasoning chain
when the fraud flag reverses an agent approval. -/
def mlOverrideNote : String := " ML FRAUD DETECTION OVERRIDE"

/-- `AgenticTradeValidator.assess_trade` (lines 317–459): input validation
first (an error returns immediately with zero side effects), then the ML
fraud detection, the similar-trade context, the agentic graph, and the
combination `final_approved = agent_approved and not ml_fraud_detected`
with `ml_override = ml_fraud_detected and agent_approved`; a completed
assessment is fed to `_update_learning`.  Returns the result together with
the updated validator and detector states. -/
def assessTrade (cfg : Config) (env : Env) (vs : ValidatorState) (ml : MLState)
    (inp : TradeInput) : TradeAssessment × ValidatorState × MLState :=
  match validateInputs cfg inp with
  | some err => (errorResult err inp, vs, ml)
  | none =>
    let mlr := runMLFraudDetection cfg env ml inp
    let similar := getSimilarTrades vs.trade_history inp.required_cash inp.required_sec 5
    let g := runGraph env (mkGraphState cfg vs inp similar)
    let agent := g.approved
    let fraud := mlr.fst.is_fraudulent
    let res : TradeAssessment :=
      { approved := agent && !fraud
        final_decision := if agent && !fraud then "approved" else "rejected"
        confidence_score := g.confidence_score
        reasoning_chain :=
          if agent && fraud then g.reasoning_chain ++ mlOverrideNote
          else g.reasoning_chain
        risk_assessment := g.risk_assessment
        ml_fraud_detected := fraud
        ml_fraud_probability := mlr.fst.fraud_probability
        ml_risk_level := mlr.fst.risk_level
        agent_decision := agent
        ml_override := fraud && agent
        balance_status := g.balance
        trade_timestamp := g.trade_timestamp
        required_cash := inp.required_cash
        required_sec := inp.required_sec
        recommended_threshold := g.current_risk_threshold
        errorMsg := none }
    (res, updateLearning cfg.enable_learning vs res, mlr.snd)

/-! ## trade_agent.py — constructor threshold normalisation -/

/-- The constructor's threshold normalisation (`__init__`, lines 50–58):
values above `10 ** 9` are reinterpreted as wei — `int()` of the binary64
quotient by `10 ** 18` — and smaller values are stored unchanged. -/
def normalizeThreshold (initial : ℕ) : ℕ :=
  if initial > 10 ^ 9 then
    (floatRound (pyDiv (initial : ℚ) ((10 ^ 18 : ℕ) : ℚ))).floor.toNat
  else initial

/-! ## Concrete fixtures used by the closed evaluations -/

/-- A distinguishable record used for the 1001-insert eviction scenario:
record number `i`. -/
def demoRecord (i : ℕ) : TradeRecord :=
  { timestamp := "t", required_cash := (i : ℤ), required_sec := 1
    approved := true, confidence_score := mkRat 1 2
    risk_level := "low", reasoning := "" }

/-- The history obtained by inserting records number 0, 1, …, 1000 (1001
records) into an empty memory store. -/
def insert1001 : List TradeRecord :=
  ((List.range 1001).map demoRecord).foldl updateTradeHistory []

/-- A stored trade with the given cash and securities amount (used for the
20%-window instances and the ordering counterexample). -/
def storedTrade (ts : String) (amount : ℤ) : TradeRecord :=
  { timestamp := ts, required_cash := amount, required_sec := amount
    approved := true, confidence_score := mkRat 1 2
    risk_level := "low", reasoning := "" }

/-- Six stored trades, all inside the 20% window of the query
`(1000, 1000)`; `t1` is the oldest, `t6` the most recent. -/
def sixMatches : List TradeRecord :=
  [storedTrade "t1" 1000, storedTrade "t2" 1000, storedTrade "t3" 1000,
   storedTrade "t4" 1000, storedTrade "t5" 1000, storedTrade "t6" 1000]

/-- A well-formed demo address (`0x` plus 40 hex digits). -/
def demoAddr : String := "0xaaaaaaaaaaaaaaaaaaaaaaaaaaaaaaaaaaaaaaaa"

/-- Demo configuration: valid token addresses, learning and ML enabled. -/
def demoCfg : Config :=
  { token_cash := demoAddr, token_sec := demoAddr
    enable_learning := true, enable_ml := true }

/-- Demo trade: 100 cash units against 10 securities units. -/
def demoInput : TradeInput :=
  { trader_cash := demoAddr, trader_sec := demoAddr
    required_cash := 100, required_sec := 10 }

/-- Fresh validator memory with threshold 1000. -/
def demoValidatorState : ValidatorState :=
  { current_risk_threshold := 1000
    trade_history := []
    learned_patterns :=
      { approved_trades := [], rejected_trades := [], risk_adjustments := [] } }

/-- Fresh ML detector state. -/
def demoMLState : MLState :=
  { trade_history := [], price_history := [], trader_stats := []
    detection_stats :=
      { total_checks := 0, fraud_detected := 0, high_risk := 0
        medium_risk := 0, low_risk := 0 } }

/-- An environment in which every collaborator is benign — ample balances,
low risk, an approving reasoner — but the classifier scores probability 1:
the ML override scenario of claim C1. -/
def demoEnvFraud : Env :=
  { planning :=
      { initial_thoughts := []
        investigation_plan := ["balance_check", "risk_assessment"]
        risk_factors := [], confidence_score := mkRat 8 10 }
    graphBalances := some (1000000, 1000000)
    risk := { risk_level := "low", recommended_threshold := none, reasoning := "fine" }
    decision := some LLMDecision.approve
    decisionReasoning := "looks good"
    now := "2026-10-12 00:00:00"
    mlBalances := some (100, 100)
    hour := 10
    weekday := 2
    npStd := fun _ => 0
    model := { threshold := mkRat 1 2, proba := fun _ => 1 } }

/-- An environment in which the on-chain balances cannot cover the trade —
the balance stage reports `insufficient` — while the classifier sees no
fraud and the advisory reasoner answers APPROVE with high pipeline
confidence and low risk. -/
def demoEnvInsufficient : Env :=
  { planning :=
      { initial_thoughts := []
        investigation_plan := ["balance_check", "risk_assessment"]
        risk_factors := [], confidence_score := mkRat 8 10 }
    graphBalances := some (0, 0)
    risk := { risk_level := "low", recommended_threshold := none, reasoning := "fine" }
    decision := some LLMDecision.approve
    decisionReasoning := "looks good"
    now := "2026-10-12 00:00:00"
    mlBalances := some (0, 0)
    hour := 10
    weekday := 2
    npStd := fun _ => 0
    model := { threshold := mkRat 1 2, proba := fun _ => 0 } }

/-- A validator memory differing from `demoValidatorState` only in the
learned patterns. -/
def demoValidatorStateB : ValidatorState :=
  { current_risk_threshold := 1000
    trade_history := []
    learned_patterns :=
      { approved_trades := [demoRecord 7], rejected_trades := []
        risk_adjustments := [(500, 700)] } }

/-- An ML detector state differing from `demoMLState` only in the
detection statistics. -/
def demoMLStateB : MLState :=
  { trade_history := [], price_history := [], trader_stats := []
    detection_stats :=
      { total_checks := 9, fraud_detected := 2, high_risk := 3
        medium_risk := 1, low_risk := 3 } }

/-! ## Shared lemmas -/

theorem pyDiv_eq (a b : ℚ) : pyDiv a b = a / b := by
  rcases eq_or_ne b 0 with rfl | hb
  · simp [pyDiv]
  · have h1 : (a.den : ℚ) ≠ 0 := Nat.cast_ne_zero.mpr a.den_nz
    have h1b : (b.den : ℚ) ≠ 0 := Nat.cast_ne_zero.mpr b.den_nz
    have h2 : (b.num : ℚ) ≠ 0 := by
      exact_mod_cast Rat.num_ne_zero.mpr hb
    rw [pyDiv, Rat.divInt_eq_div]
    push_cast
    rw [div_eq_div_iff (mul_ne_zero h1 h2) hb]
    have e1 : (a.num : ℚ) = a * a.den := (div_eq_iff h1).mp (Rat.num_div_den a)
    have e2 : (b.num : ℚ) = b * b.den := (div_eq_iff h1b).mp (Rat.num_div_den b)
    rw [e1, e2]
    ring

theorem pyMin_eq (a b : ℚ) : pyMin a b = min a b := by
  simp [pyMin, min_def]

theorem pyAbs_eq (a : ℚ) : pyAbs a = |a| := by
  rcases lt_or_le a 0 with h | h
  · simp [pyAbs, h, abs_of_neg h]
  · simp [pyAbs, not_lt.mpr h, abs_of_nonneg h]

theorem mkRat_half : (mkRat 1 2 : ℚ) = 1/2 := by norm_num [Rat.mkRat_eq_div]

theorem mkRat_fifth : (mkRat 1 5 : ℚ) = 1/5 := by norm_num [Rat.mkRat_eq_div]

theorem mkRat_tenth : (mkRat 1 10 : ℚ) = 1/10 := by norm_num [Rat.mkRat_eq_div]

theorem classifierVerdict_bucketing (m : MLModel) (p : ℚ) :
    ((classifierVerdict m p).risk_level = "CRITICAL" ↔ 1/2 ≤ p) ∧
    ((classifierVerdict m p).risk_level = "HIGH" ↔ (1/5 ≤ p ∧ p < 1/2)) ∧
    ((classifierVerdict m p).risk_level = "MEDIUM" ↔ (1/10 ≤ p ∧ p < 1/5)) ∧
    ((classifierVerdict m p).risk_level = "LOW" ↔ p < 1/10) ∧
    ((classifierVerdict m p).is_fraudulent = true ↔ m.threshold ≤ p) := by
  unfold classifierVerdict riskBucket
  simp only [ge_iff_le, mkRat_half, mkRat_fifth, mkRat_tenth, decide_eq_true_eq]
  refine ⟨?_, ?_, ?_, ?_, by simp⟩ <;>
    split_ifs with hA hB hC <;>
      simp_all <;>
        first
          | linarith
          | (intro h; linarith)

/-! ## Claim C7 -/

/-- Claim C7: for every feature vector scored by the Fraud Classifier, the
risk level is CRITICAL iff `fraud_probability ≥ 0.5`, HIGH iff
`0.2 ≤ p < 0.5`, MEDIUM iff `0.1 ≤ p < 0.2`, LOW otherwise, and
`is_fraudulent` is true iff the probability reaches the decision threshold
loaded at construction, independently of the bucketing cut points. -/
theorem claim_c7_risk_bucketing (m : MLModel) (std : List ℚ → ℚ)
    (ml : MLState) (td : TradeData) :
    ((predictFraud m std ml td).fst.risk_level = "CRITICAL" ↔
      1/2 ≤ (predictFraud m std ml td).fst.fraud_probability) ∧
    ((predictFraud m std ml td).fst.risk_level = "HIGH" ↔
      (1/5 ≤ (predictFraud m std ml td).fst.fraud_probability ∧
       (predictFraud m std ml td).fst.fraud_probability < 1/2)) ∧
    ((predictFraud m std ml td).fst.risk_level = "MEDIUM" ↔
      (1/10 ≤ (predictFraud m std ml td).fst.fraud_probability ∧
       (predictFraud m std ml td).fst.fraud_probability < 1/5)) ∧
    ((predictFraud m std ml td).fst.risk_level = "LOW" ↔
      (predictFraud m std ml td).fst.fraud_probability < 1/10) ∧
    ((predictFraud m std ml td).fst.is_fraudulent = true ↔
      m.threshold ≤ (predictFraud m std ml td).fst.fraud_probability) := by
  have h : (predictFraud m std ml td).fst =
      classifierVerdict m
        (m.proba (extractFeatures std
          { ml with detection_stats :=
              { ml.detection_stats with
                  total_checks := ml.detection_stats.total_checks + 1 } } td).fst) := rfl
  rw [h]
  exact classifierVerdict_bucketing m _

/-! ## Claim C4 -/

/-- Claim C4, counterexample: with old threshold 1000 and recommended
threshold 1001, `_update_learning` stores `int(1000*0.7 + 1001*0.3) = 1000`
(the binary64 sum is exactly `1000.3`, truncated by `int()`), whereas the
claimed update formula `old*0.7 + recommended*0.3` has the non-integer
value `1000.3` — the stored integer threshold cannot equal the blend. -/
theorem claim_c4_counterexample :
    updateThreshold 1000 1001 = 1000 ∧
    ((1000 : ℚ) ≠ 1000 * (7/10) + 1001 * (3/10)) := by
  constructor
  · decide
  · norm_num

/-- Claim C4 (amended): whenever learning is enabled and a completed
assessment carries a truthy (non-zero) `recommended_threshold`, the
adaptive risk threshold becomes `int(old*0.7 + recommended*0.3)` evaluated
in IEEE-754 binary64 arithmetic — not the exact blend, and in general not
even its floor — and is unchanged otherwise.  With old threshold 1000 and
recommended threshold 2000 the new threshold is exactly 1300; at the
source's own parse-failure fallback recommendation `10**21`, the binary64
blend stores `3*10^20` while the floor of the exact blend would be
`3*10^20 + 700`. -/
theorem claim_c4_threshold_smoothing :
    (∀ (en : Bool) (vs : ValidatorState) (res : TradeAssessment),
      (updateLearning en vs res).current_risk_threshold =
        if en = true ∧ res.recommended_threshold ≠ 0
        then updateThreshold vs.current_risk_threshold res.recommended_threshold
        else vs.current_risk_threshold) ∧
    updateThreshold 1000 2000 = 1300 ∧
    updateThreshold 1000 (10 ^ 21) = 300000000000000000000 ∧
    (7 * 1000 + 3 * 10 ^ 21) / 10 = 300000000000000000700 := by
  refine ⟨?_, by decide, by decide, by decide⟩
  · intro en vs res
    cases en with
    | false => simp [updateLearning]
    | true =>
      by_cases hrec : res.recommended_threshold = 0 <;>
        simp [updateLearning, hrec]

/-! ## Claim C10 -/

/-- Claim C10, counterexample: for `initial_risk_threshold = 2*10^18 - 1`
(which exceeds `10^9`), the constructor stores
`int((2*10^18 - 1) / 10^18) = 2` — the binary64 quotient rounds up to
`2.0` — whereas `floor(initial / 10^18) = 1`. -/
theorem claim_c10_counterexample :
    normalizeThreshold (2 * 10 ^ 18 - 1) = 2 ∧
    (2 * 10 ^ 18 - 1) / 10 ^ 18 = 1 := by
  constructor
  · decide
  · decide

/-- Claim C10 (amended): the constructor normalizes
`initial_risk_threshold` before use — for every value above `10^9` it
stores `int()` of the IEEE-754 binary64 quotient `initial / 10^18` (which
can exceed `floor(initial / 10^18)` when the exact quotient falls within
rounding distance of the next integer), and smaller values are stored
unchanged; the documented default `10^21` yields an effective threshold of
1000 human units, and `10^18` yields 1. -/
theorem claim_c10_threshold_normalisation :
    normalizeThreshold (10 ^ 21) = 1000 ∧
    (∀ i : ℕ, i ≤ 10 ^ 9 → normalizeThreshold i = i) ∧
    normalizeThreshold (10 ^ 18) = 1 := by
  refine ⟨by decide, ?_, by decide⟩
  intro i hi
  rw [normalizeThreshold, if_neg (by omega)]

/-- Witness for claim C10: a small threshold is stored unchanged. -/
theorem claim_c10_witness : normalizeThreshold 5 = 5 :=
  claim_c10_threshold_normalisation.2.1 5 (by norm_num)

/-! ## Claim C5 -/

theorem foldl_updateTradeHistory_no_trim :
    ∀ (l acc : List TradeRecord), acc.length + l.length ≤ 1000 →
      l.foldl updateTradeHistory acc = acc ++ l := by
  intro l
  induction l with
  | nil =>
    intro acc _
    simp
  | cons x xs ih =>
    intro acc h
    simp only [List.length_cons] at h
    rw [List.foldl_cons]
    have hx : (acc ++ [x]).length = acc.length + 1 := by simp
    have hstep : updateTradeHistory acc x = acc ++ [x] := by
      unfold updateTradeHistory trimHistory
      rw [if_neg (by rw [hx]; omega)]
    rw [hstep, ih (acc ++ [x]) (by rw [hx]; omega)]
    simp

/-- Claim C5: the trade-history memory store is a FIFO buffer bounded at
1000 records — one completed-assessment update keeps the length at most
1000, and inserting 1001 records into an empty store leaves exactly the
records 1–1000 (record 0 evicted, record 1 the oldest survivor). -/
theorem claim_c5_history_eviction (h : List TradeRecord) (r : TradeRecord)
    (hb : h.length ≤ 1000) :
    (updateTradeHistory h r).length ≤ 1000 ∧
    insert1001 = (List.range' 1 1000).map demoRecord ∧
    insert1001.length = 1000 ∧
    insert1001.head? = some (demoRecord 1) ∧
    demoRecord 0 ∉ insert1001 := by
  have key : insert1001 = (List.range' 1 1000).map demoRecord := by
    have hsplit : insert1001 =
        updateTradeHistory ((List.range 1000).map demoRecord) (demoRecord 1000) := by
      unfold insert1001
      rw [show (1001 : ℕ) = 1000 + 1 from rfl, List.range_succ, List.map_append,
          List.foldl_append]
      rw [foldl_updateTradeHistory_no_trim _ [] (by simp)]
      simp
    rw [hsplit]
    unfold updateTradeHistory trimHistory
    rw [if_pos (by simp)]
    simp only [List.length_append, List.length_map, List.length_range,
               List.length_cons, List.length_nil]
    rw [show (1000 + (0 + 1) - 1000 : ℕ) = 1 from rfl]
    rw [List.range_eq_range']
    have h1 : List.range' 0 1000 = 0 :: List.range' 1 999 := by
      rw [List.range'_succ]
    have h2 : List.range' 1 1000 = List.range' 1 999 ++ [1000] := by
      have hc : List.range' 1 (999 + 1) = List.range' 1 999 ++ [1 + 999] :=
        List.range'_concat 1 999
      simpa using hc
    rw [h1, h2]
    simp
  refine ⟨?_, key, ?_, ?_, ?_⟩
  · unfold updateTradeHistory trimHistory
    split_ifs with hlen
    · simp only [List.length_drop]
      omega
    · simp only [List.length_append, List.length_cons, List.length_nil] at hlen ⊢
      omega
  · rw [key]
    simp
  · rw [key, List.range'_succ]
    simp
  · rw [key]
    intro hmem
    obtain ⟨i, hi, heq⟩ := List.mem_map.mp hmem
    have : (i : ℤ) = 0 := congrArg TradeRecord.required_cash heq
    have hi0 : i = 0 := by exact_mod_cast this
    rw [hi0] at hi
    exact absurd (List.mem_range'_1.mp hi).1 (by omega)

/-- Witness for claim C5: the bound applies to an empty store. -/
theorem claim_c5_witness :
    (updateTradeHistory [] (demoRecord 0)).length ≤ 1000 :=
  (claim_c5_history_eviction [] (demoRecord 0) (by decide)).1

/-! ## Claim C6 -/

/-- Claim C6, counterexample: with six matching stored records,
`_get_similar_trades` returns exactly the five oldest matches in
oldest-first order (`t1 … t5`), while the spec's `similarTrades` contract
that the claim restates demands the five most-recent ones
most-recent-first (`t6 … t2`). -/
theorem claim_c6_counterexample :
    getSimilarTrades sixMatches 1000 1000 5 =
      [toSummary (storedTrade "t1" 1000), toSummary (storedTrade "t2" 1000),
       toSummary (storedTrade "t3" 1000), toSummary (storedTrade "t4" 1000),
       toSummary (storedTrade "t5" 1000)] ∧
    specSimilarTrades sixMatches 1000 1000 5 =
      [toSummary (storedTrade "t6" 1000), toSummary (storedTrade "t5" 1000),
       toSummary (storedTrade "t4" 1000), toSummary (storedTrade "t3" 1000),
       toSummary (storedTrade "t2" 1000)] ∧
    getSimilarTrades sixMatches 1000 1000 5 ≠
      specSimilarTrades sixMatches 1000 1000 5 := by
  refine ⟨by decide, by decide, by decide⟩

/-- Claim C6 (amended): the similar-trades lookup is exactly
`take limit` of the summaries of the records matching the 20% window,
taken from the 50 most-recent stored records in chronological
(oldest-first) order — so it returns the first (oldest) up to `limit`
matches of that window, not the most-recent ones; consequently the result
holds at most `limit` summaries, is a prefix of the windowed matches, and
only the last 50 records matter; with six matching records it returns
`t1 … t5` oldest-first; a record matches when both amounts are within
strict 20% relative difference of the query amounts — a stored amount of
1150 matches a query amount of 1000 (15%) and 1250 (25%) does not. -/
theorem claim_c6_similar_trades (hist : List TradeRecord) (rc rs : ℤ)
    (limit : ℕ) :
    getSimilarTrades hist rc rs limit =
      ((((lastN 50 hist).filter (similarMatch rc rs)).map toSummary).take
        limit) ∧
    (getSimilarTrades hist rc rs limit).length ≤ limit ∧
    (getSimilarTrades hist rc rs limit <+:
      ((lastN 50 hist).filter (similarMatch rc rs)).map toSummary) ∧
    getSimilarTrades hist rc rs limit =
      getSimilarTrades (lastN 50 hist) rc rs limit ∧
    getSimilarTrades sixMatches 1000 1000 5 =
      [toSummary (storedTrade "t1" 1000), toSummary (storedTrade "t2" 1000),
       toSummary (storedTrade "t3" 1000), toSummary (storedTrade "t4" 1000),
       toSummary (storedTrade "t5" 1000)] ∧
    similarMatch 1000 1000 (storedTrade "t" 1150) = true ∧
    similarMatch 1000 1000 (storedTrade "t" 1250) = false := by
  refine ⟨?_, ?_, ?_, ?_, by decide, by decide, by decide⟩
  · unfold getSimilarTrades
    split_ifs with hnil
    · simp [hnil, lastN]
    · rfl
  · unfold getSimilarTrades
    split_ifs
    · simp
    · exact List.length_take_le _ _
  · unfold getSimilarTrades
    split_ifs with hnil
    · simp [hnil, lastN]
    · exact List.take_prefix _ _
  · by_cases hnil : hist = []
    · simp [getSimilarTrades, hnil, lastN]
    · have hlastlen : (lastN 50 hist).length ≤ 50 := by
        unfold lastN
        rw [List.length_drop]
        omega
      have hidem : lastN 50 (lastN 50 hist) = lastN 50 hist := by
        conv_lhs => rw [lastN]
        rw [Nat.sub_eq_zero_of_le hlastlen, List.drop_zero]
      have hpos : 0 < hist.length := List.length_pos.mpr hnil
      have hne : lastN 50 hist ≠ [] := by
        intro hcon
        have hlen0 := congrArg List.length hcon
        rw [lastN, List.length_drop, List.length_nil] at hlen0
        omega
      rw [getSimilarTrades, if_neg hnil, getSimilarTrades, if_neg hne, hidem]

/-! ## Claim C9 -/

theorem runGraphTrace_with_context (cfg : Config) (env : Env)
    (vs : ValidatorState) (inp : TradeInput) (similar : List SimilarSummary)
    (hmem : "context_analysis" ∈ env.planning.investigation_plan) :
    runGraphTrace env (mkGraphState cfg vs inp similar) =
      ["context_gathering", "enhanced_balance", "intelligent_risk",
       "agent_decision"] := by
  simp [runGraphTrace, graphTrace, adaptive_router, runNode,
        agent_planning_node, context_gathering_node, enhanced_balance_node,
        intelligent_risk_node, mkGraphState, hmem]

theorem runGraphTrace_without_context (cfg : Config) (env : Env)
    (vs : ValidatorState) (inp : TradeInput) (similar : List SimilarSummary)
    (hmem : "context_analysis" ∉ env.planning.investigation_plan) :
    runGraphTrace env (mkGraphState cfg vs inp similar) =
      ["enhanced_balance", "intelligent_risk", "agent_decision"] := by
  simp [runGraphTrace, graphTrace, adaptive_router, runNode,
        agent_planning_node, context_gathering_node, enhanced_balance_node,
        intelligent_risk_node, mkGraphState, hmem]

/-- Claim C9: every decision-pipeline invocation, whatever investigation
plan the planning stage produces, visits the balance stage and the risk
stage exactly once, visits the context stage exactly once when the plan
requests `context_analysis` and never otherwise, and always terminates in
the decision stage. -/
theorem claim_c9_router_termination (cfg : Config) (env : Env)
    (vs : ValidatorState) (inp : TradeInput) (similar : List SimilarSummary) :
    (runGraphTrace env (mkGraphState cfg vs inp similar)).count
        "enhanced_balance" = 1 ∧
    (runGraphTrace env (mkGraphState cfg vs inp similar)).count
        "intelligent_risk" = 1 ∧
    (runGraphTrace env (mkGraphState cfg vs inp similar)).count
        "context_gathering" =
      (if "context_analysis" ∈ env.planning.investigation_plan then 1 else 0) ∧
    (runGraphTrace env (mkGraphState cfg vs inp similar)).getLast? =
      some "agent_decision" := by
  by_cases hmem : "context_analysis" ∈ env.planning.investigation_plan
  · rw [runGraphTrace_with_context cfg env vs inp similar hmem, if_pos hmem]
    refine ⟨by decide, by decide, by decide, by decide⟩
  · rw [runGraphTrace_without_context cfg env vs inp similar hmem, if_neg hmem]
    refine ⟨by decide, by decide, by decide, by decide⟩

/-! ## Claim C3 -/

theorem validateInputs_zero (cfg : Config) (a b : String) :
    ∃ e, validateInputs cfg
      { trader_cash := a, trader_sec := b
        required_cash := 0, required_sec := 0 } = some e := by
  unfold validateInputs
  split_ifs <;> first | exact ⟨_, rfl⟩ | simp_all

/-- Claim C3: a call with `required_cash = 0` and `required_sec = 0` is
rejected by input validation — `approved = false`,
`final_decision = "error"`, an `error` message present — before any
pipeline stage runs: the validator memory (trade history, learned
patterns, adaptive threshold) and the ML detector state (rolling
histories, trader statistics, detection counters) are returned
unchanged. -/
theorem claim_c3_zero_amount_rejected (cfg : Config) (env : Env)
    (vs : ValidatorState) (ml : MLState) (a b : String) :
    ((assessTrade cfg env vs ml
        { trader_cash := a, trader_sec := b
          required_cash := 0, required_sec := 0 }).fst.approved = false) ∧
    ((assessTrade cfg env vs ml
        { trader_cash := a, trader_sec := b
          required_cash := 0, required_sec := 0 }).fst.final_decision = "error") ∧
    ((assessTrade cfg env vs ml
        { trader_cash := a, trader_sec := b
          required_cash := 0, required_sec := 0 }).fst.errorMsg.isSome = true) ∧
    ((assessTrade cfg env vs ml
        { trader_cash := a, trader_sec := b
          required_cash := 0, required_sec := 0 }).snd.fst = vs) ∧
    ((assessTrade cfg env vs ml
        { trader_cash := a, trader_sec := b
          required_cash := 0, required_sec := 0 }).snd.snd = ml) := by
  obtain ⟨e, he⟩ := validateInputs_zero cfg a b
  unfold assessTrade
  rw [he]
  simp [errorResult]

/-! ## Claim C1 -/

/-- Claim C1: on every assessment that passes input validation, a fraud
flag from the classifier forces `approved = false` even when the agentic
pipeline approved; `approved` is exactly
`agent_approved AND NOT ml_fraud_detected`, and `ml_override` is true
exactly when the fraud flag reversed an agent approval. -/
theorem claim_c1_ml_fraud_override (cfg : Config) (env : Env)
    (vs : ValidatorState) (ml : MLState) (inp : TradeInput)
    (hv : validateInputs cfg inp = none) :
    ((runMLFraudDetection cfg env ml inp).fst.is_fraudulent = true →
      (assessTrade cfg env vs ml inp).fst.approved = false) ∧
    (assessTrade cfg env vs ml inp).fst.approved =
      ((assessTrade cfg env vs ml inp).fst.agent_decision &&
        !(assessTrade cfg env vs ml inp).fst.ml_fraud_detected) ∧
    (assessTrade cfg env vs ml inp).fst.ml_override =
      ((assessTrade cfg env vs ml inp).fst.agent_decision &&
        (assessTrade cfg env vs ml inp).fst.ml_fraud_detected) ∧
    (assessTrade cfg env vs ml inp).fst.ml_fraud_detected =
      (runMLFraudDetection cfg env ml inp).fst.is_fraudulent := by
  unfold assessTrade
  rw [hv]
  refine ⟨?_, rfl, ?_, rfl⟩
  · intro hfraud
    simp [hfraud]
  · exact Bool.and_comm _ _

/-- Witness for claim C1: at the demo input the classifier flags fraud,
the agent approves, and the combined result is rejected with the override
marked. -/
theorem claim_c1_witness :
    (runMLFraudDetection demoCfg demoEnvFraud demoMLState demoInput).fst.is_fraudulent
        = true ∧
    (assessTrade demoCfg demoEnvFraud demoValidatorState demoMLState
        demoInput).fst.approved = false :=
  ⟨by decide,
   (claim_c1_ml_fraud_override demoCfg demoEnvFraud demoValidatorState
      demoMLState demoInput (by decide)).1 (by decide)⟩

/-! ## Claim C2 -/

/-- Claim C2, failing-input evaluation: the balance stage records
`insufficient`, yet the final decision is `approved = true` — the decision
node passes the balance verdict to the reasoner prompt only and never
enforces it, so an approving reasoner with confidence ≥ 0.5 and low risk
approves the trade.  The claimed fail-closed precedence of the balance
check does not hold in the code. -/
theorem claim_c2_balance_not_enforced :
    (assessTrade demoCfg demoEnvInsufficient demoValidatorState demoMLState
        demoInput).fst.balance_status = "insufficient" ∧
    (assessTrade demoCfg demoEnvInsufficient demoValidatorState demoMLState
        demoInput).fst.ml_fraud_detected = false ∧
    (assessTrade demoCfg demoEnvInsufficient demoValidatorState demoMLState
        demoInput).fst.approved = true := by
  refine ⟨by decide, by decide, by decide⟩

/-! ## Claim C8 -/

theorem runMLFraudDetection_fst_stats (cfg : Config) (env : Env) (inp : TradeInput)
    (a : List TradeEvent) (b : List (String × List ℚ)) (c : List (String × ℕ))
    (d d' : DetectionStats) :
    (runMLFraudDetection cfg env ⟨a, b, c, d⟩ inp).fst =
      (runMLFraudDetection cfg env ⟨a, b, c, d'⟩ inp).fst := by
  unfold runMLFraudDetection
  cases env.mlBalances with
  | none => split_ifs <;> rfl
  | some bs =>
    obtain ⟨bb, sb⟩ := bs
    split_ifs <;> rfl

theorem assessTrade_fst_ext (cfg : Config) (env : Env) (inp : TradeInput)
    (t : ℕ) (h : List TradeRecord) (p p' : LearnedPatterns)
    (a : List TradeEvent) (b : List (String × List ℚ)) (c : List (String × ℕ))
    (d d' : DetectionStats) :
    (assessTrade cfg env ⟨t, h, p⟩ ⟨a, b, c, d⟩ inp).fst =
      (assessTrade cfg env ⟨t, h, p'⟩ ⟨a, b, c, d'⟩ inp).fst := by
  unfold assessTrade
  cases hval : validateInputs cfg inp with
  | some e => rfl
  | none =>
    dsimp only
    rw [runMLFraudDetection_fst_stats cfg env inp a b c d d']
    rw [show (mkGraphState cfg ⟨t, h, p⟩ inp
          (getSimilarTrades h inp.required_cash inp.required_sec 5)) =
        (mkGraphState cfg ⟨t, h, p'⟩ inp
          (getSimilarTrades h inp.required_cash inp.required_sec 5)) from rfl]

/-- Claim C8: two `assess_trade` calls with identical inputs, against the
same environment (frozen classifier, reasoner responses, balances, clock)
and with the adaptive threshold, the stored trade history and the ML
detector's rolling histories unchanged between the runs, produce identical
`approved`, pipeline `risk_assessment` and classifier `risk_level` —
in particular the remaining mutable state (learned patterns, detection
statistics) has no influence on the decision. -/
theorem claim_c8_two_run_determinism (cfg : Config) (env : Env)
    (inp : TradeInput) (vs1 vs2 : ValidatorState) (ml1 ml2 : MLState)
    (hth : vs1.current_risk_threshold = vs2.current_risk_threshold)
    (hhist : vs1.trade_history = vs2.trade_history)
    (hmlh : ml1.trade_history = ml2.trade_history)
    (hmlp : ml1.price_history = ml2.price_history)
    (hmlt : ml1.trader_stats = ml2.trader_stats) :
    (assessTrade cfg env vs1 ml1 inp).fst.approved =
      (assessTrade cfg env vs2 ml2 inp).fst.approved ∧
    (assessTrade cfg env vs1 ml1 inp).fst.risk_assessment =
      (assessTrade cfg env vs2 ml2 inp).fst.risk_assessment ∧
    (assessTrade cfg env vs1 ml1 inp).fst.ml_risk_level =
      (assessTrade cfg env vs2 ml2 inp).fst.ml_risk_level := by
  obtain ⟨t1, h1, p1⟩ := vs1
  obtain ⟨t2, h2, p2⟩ := vs2
  obtain ⟨a1, b1, c1, d1⟩ := ml1
  obtain ⟨a2, b2, c2, d2⟩ := ml2
  dsimp only at hth hhist hmlh hmlp hmlt
  subst hth hhist hmlh hmlp hmlt
  rw [assessTrade_fst_ext cfg env inp t1 h1 p1 p2 a1 b1 c1 d1 d2]
  exact ⟨rfl, rfl, rfl⟩

/-- Witness for claim C8 at the demo input and two state pairs that agree
on threshold and histories but differ in patterns and statistics. -/
theorem claim_c8_witness :
    (assessTrade demoCfg demoEnvFraud demoValidatorState demoMLState
        demoInput).fst.approved =
      (assessTrade demoCfg demoEnvFraud demoValidatorStateB demoMLStateB
        demoInput).fst.approved :=
  (claim_c8_two_run_determinism demoCfg demoEnvFraud demoInput
    demoValidatorState demoValidatorStateB demoMLState demoMLStateB
    rfl rfl rfl rfl rfl).1
